import Mathlib

/-!
Verification development for the Wi-Fi onboarding orchestrator
(src/src/network.rs). The orchestrator, its scan-retry and
connectivity-poll primitives, and its unified exit path are embedded as
executable Lean functions. External effects (the network-management
service, the channels, the helper process) are supplied as explicit
oracle inputs; observable actions are recorded in an event trace.
-/

namespace WifiConnect

/-- Global connectivity state reported by the network-management service
(network_manager::Connectivity). -/
inductive Connectivity
  | Unknown
  | NoConnectivity
  | Limited
  | Full
deriving DecidableEq, Repr

/-- State of a connection profile (network_manager::ConnectionState);
only the comparison with Activated matters to the orchestrator. -/
inductive ConnectionState
  | Activated
  | Activating
  | Deactivated
  | Unknown
deriving DecidableEq, Repr

/-- Device type (network_manager::DeviceType); the orchestrator only
distinguishes WiFi from the rest. -/
inductive DeviceType
  | WiFi
  | Ethernet
  | Generic
deriving DecidableEq, Repr

/-- A network device handle: its interface name and type. -/
structure Device where
  interface : String
  device_type : DeviceType
deriving DecidableEq, Repr

/-- An observed access point. The source stores a raw ssid and decodes it
with ssid().as_str(), which may fail; ssid_utf8 is the decode result:
some text when the ssid is valid text, none when undecodable. -/
structure AccessPoint where
  ssid_utf8 : Option String
deriving DecidableEq, Repr

/-- A connection profile object, identified abstractly. -/
structure Connection where
  id : Nat
deriving DecidableEq, Repr

/-- ExitResult from the crate root: success, or a failure message. -/
abbrev ExitResult := Except String Unit

instance exceptDecidableEq {ε α : Type} [DecidableEq ε] [DecidableEq α] :
    DecidableEq (Except ε α) := fun a b => by
  cases a with
  | ok x =>
    cases b with
    | ok y =>
      exact
        if h : x = y then isTrue (by rw [h])
        else isFalse (by intro hh; injection hh; contradiction)
    | error f => exact isFalse (by intro hh; exact Except.noConfusion hh)
  | error e =>
    cases b with
    | ok y => exact isFalse (by intro hh; exact Except.noConfusion hh)
    | error f =>
      exact
        if h : e = f then isTrue (by rw [h])
        else isFalse (by intro hh; injection hh; contradiction)

instance : DecidableEq ExitResult := fun a b => by
  cases a with
  | ok u =>
    cases b with
    | ok v => exact isTrue (by cases u; cases v; rfl)
    | error f => exact isFalse (by intro h; exact Except.noConfusion h)
  | error e =>
    cases b with
    | ok v => exact isFalse (by intro h; exact Except.noConfusion h)
    | error f =>
      exact
        if h : e = f then isTrue (by rw [h])
        else isFalse (by intro hh; injection hh; contradiction)

/-- The network-management service capability used during device
resolution, as seen by find_device. -/
structure NetworkManager where
  get_device_by_interface : String → Except String Device
  get_devices : Except String (List Device)

/-- The configuration fields consumed by process_network_commands. -/
structure Config where
  interface : Option String
  ssid : String
  passphrase : Option String
  activity_timeout : Nat

/-- Source find_device: with an explicit interface name, fetch that
device and require it to be WiFi; otherwise take the first WiFi device
in the device list. -/
def find_device (manager : NetworkManager) (interface : Option String) :
    Except String Device :=
  match interface with
  | some interface =>
    match manager.get_device_by_interface interface with
    | .error e => .error e
    | .ok device =>
      if device.device_type = DeviceType.WiFi then
        .ok device
      else
        .error ("Not a WiFi device: " ++ interface)
  | none =>
    match manager.get_devices with
    | .error e => .error e
    | .ok devices =>
      match devices.find? (fun d => d.device_type = DeviceType.WiFi) with
      | some d => .ok d
      | none => .error "Cannot find a WiFi device"

/-- The retain step of get_access_points: keep only access points whose
ssid decodes as valid text (ap.ssid().as_str().is_ok()). -/
def retain_decodable (access_points : List AccessPoint) : List AccessPoint :=
  access_points.filter (fun ap => ap.ssid_utf8.isSome)

/-- Loop body of source get_access_points. The source runs a while loop
with retries counting up from 0 to retries_allowed = 10; here fuel
counts the remaining iterations (fuel = retries_allowed - retries), so
fuel = 0 is loop exit, returning Ok(vec![]). The raw scan primitive is
the oracle scan, indexed by the attempt number retries; a scan error
propagates (the ? operator). sleeps counts the executed one-second
delays; the source sleeps after every empty attempt. -/
def get_access_points_loop (scan : Nat → Except String (List AccessPoint)) :
    Nat → Nat → Nat → Except String (List AccessPoint × Nat)
  | 0, _retries, sleeps => Except.ok ([], sleeps)
  | fuel + 1, retries, sleeps =>
    match scan retries with
    | .error e => .error e
    | .ok raw =>
      let access_points := retain_decodable raw
      if access_points.isEmpty then
        get_access_points_loop scan fuel (retries + 1) (sleeps + 1)
      else
        Except.ok (access_points, sleeps)

/-- Source get_access_points: retry the raw scan up to 10 times while
the decodable-filtered result is empty; also return the number of
one-second delays performed. -/
def get_access_points (scan : Nat → Except String (List AccessPoint)) :
    Except String (List AccessPoint × Nat) :=
  get_access_points_loop scan 10 0 0

/-- Source get_access_points_ssids: map ssid().as_str().unwrap() over
the list; the unwrap panic is modelled as none. -/
def get_access_points_ssids : List AccessPoint → Option (List String)
  | [] => some []
  | ap :: rest =>
    match ap.ssid_utf8 with
    | none => none
    | some s =>
      match get_access_points_ssids rest with
      | none => none
      | some ss => some (s :: ss)

/-- Source get_access_points_ssids_owned: same as
get_access_points_ssids but producing owned Strings; the unwrap panic is
modelled as none. -/
def get_access_points_ssids_owned : List AccessPoint → Option (List String)
  | [] => some []
  | ap :: rest =>
    match ap.ssid_utf8 with
    | none => none
    | some s =>
      match get_access_points_ssids_owned rest with
      | none => none
      | some ss => some (s :: ss)

/-- The decoded ssid texts of a snapshot, positionally. On snapshots all
of whose entries decode, this is exactly what
get_access_points_ssids_owned returns. -/
def ssid_texts (access_points : List AccessPoint) : List String :=
  access_points.map (fun ap => ap.ssid_utf8.getD "")

/-- Source find_access_point: first access point whose decoded ssid
equals the requested ssid; entries that fail to decode are skipped. -/
def find_access_point (access_points : List AccessPoint) (ssid : String) :
    Option (AccessPoint × String) :=
  match access_points with
  | [] => none
  | ap :: rest =>
    match ap.ssid_utf8 with
    | some s =>
      if s = ssid then some (ap, s) else find_access_point rest ssid
    | none => find_access_point rest ssid

/-- Loop body of source wait_for_connectivity. The source loops reading
connectivity (error propagates), returns true when it is Full or
Limited, else returns false when total_time has reached the timeout,
else sleeps one second and increments total_time. The loop always
returns by total_time = timeout, so with fuel = timeout + 1 - total_time
the fuel-0 arm is unreachable; it is given the value of the timeout arm.
The oracle get is indexed by elapsed seconds; the result carries the
elapsed time at return. -/
def wait_for_connectivity_loop (get : Nat → Except String Connectivity)
    (timeout : Nat) : Nat → Nat → Except String (Bool × Nat)
  | 0, total_time => Except.ok (false, total_time)
  | fuel + 1, total_time =>
    match get total_time with
    | .error e => .error e
    | .ok connectivity =>
      if connectivity = Connectivity.Full ∨ connectivity = Connectivity.Limited then
        Except.ok (true, total_time)
      else if timeout ≤ total_time then
        Except.ok (false, total_time)
      else
        wait_for_connectivity_loop get timeout fuel (total_time + 1)

/-- Source wait_for_connectivity, started at total_time = 0. -/
def wait_for_connectivity (get : Nat → Except String Connectivity)
    (timeout : Nat) : Except String (Bool × Nat) :=
  wait_for_connectivity_loop get timeout (timeout + 1) 0

/-- Observable actions of the orchestrator, in program order. -/
inductive Event
  | helperStart
  | helperKill
  | portalCreate (c : Connection)
  | portalStopOk
  | portalStopFail
  | sleep
  | scan
  | joinAttempt (ssid : String)
  | connDeleteOk
  | connDeleteFail
  | respond (ssids : List String)
  | exitSend (r : ExitResult)
deriving DecidableEq, Repr

/-- Trace of source stop_portal: deactivate, delete, then a one-second
settle sleep; on a deactivate or delete error the sleep is not reached
and the profile is not fully removed. -/
def stop_portal_trace (ok : Bool) : List Event :=
  if ok then [Event.portalStopOk, Event.sleep] else [Event.portalStopFail]

/-- Trace of source exit_with_result: kill the helper (best-effort),
then, if a portal connection is currently held, stop it (best-effort),
then send the single ExitResult. -/
def exit_with_result_trace (connection : Option Connection) (stop_ok : Bool)
    (result : ExitResult) : List Event :=
  Event.helperKill ::
    ((match connection with
      | some _ => stop_portal_trace stop_ok
      | none => []) ++ [Event.exitSend result])

/-- Mutable state of the orchestrator main loop. -/
structure LoopState where
  access_points : List AccessPoint
  portal_connection : Option Connection
  activated : Bool
deriving DecidableEq, Repr

/-- Number of live portal profiles implied by the held option. -/
def portalCountOpt : Option Connection → Nat
  | some _ => 1
  | none => 0

/-- Number of live portal profiles in a loop state. -/
def portalCount (s : LoopState) : Nat :=
  portalCountOpt s.portal_connection

/-- Every entry of the snapshot has a decodable ssid. -/
def decodOK (access_points : List AccessPoint) : Prop :=
  ∀ ap ∈ access_points, ap.ssid_utf8.isSome = true

instance (access_points : List AccessPoint) : Decidable (decodOK access_points) :=
  List.decidableBAll _ access_points

/-- Oracle outcomes for the externals consulted while processing one
Connect command: the current-portal teardown, the two re-scans, the
join attempt, the connectivity polls, the best-effort delete of the
just-created connection, the portal recreation, and the best-effort
portal stop attempted by the exit routine should this command end the
session. -/
structure ConnectEnv where
  stop_portal_ok : Bool
  stop_portal_err : String
  scan1 : Nat → Except String (List AccessPoint)
  join : Except String (Connection × ConnectionState)
  connectivity : Nat → Except String Connectivity
  delete_ok : Bool
  scan2 : Nat → Except String (List AccessPoint)
  create_portal_res : Except String Connection
  exit_stop_ok : Bool

/-- One main-loop iteration input: either the channel receive fails, or
a command arrives together with the oracle outcomes its processing may
consult. -/
inductive LoopInput
  | recvErr (msg : String) (exit_stop_ok : Bool)
  | activate (send_ok : Bool) (send_err : String) (exit_stop_ok : Bool)
  | timeout (exit_stop_ok : Bool)
  | connect (ssid passphrase : String) (env : ConnectEnv)

/-- Result of processing one command: continue the loop with a new
state, return after the unified exit path, or panic (an unwrap failed). -/
inductive StepResult
  | next (s : LoopState) (tr : List Event)
  | exit (r : ExitResult) (tr : List Event)
  | panicked (msg : String) (tr : List Event)
deriving DecidableEq, Repr

/-- Prefix a trace onto the local trace of a step result. -/
def StepResult.prepend (tr0 : List Event) : StepResult → StepResult
  | .next s tr => .next s (tr0 ++ tr)
  | .exit r tr => .exit r (tr0 ++ tr)
  | .panicked m tr => .panicked m (tr0 ++ tr)

/-- Event recorded for the best-effort delete of the connection object
created by a failed join (source logs the error and continues). -/
def connDeleteEvent (ok : Bool) : Event :=
  if ok then Event.connDeleteOk else Event.connDeleteFail

/-- Tail of the Connect handler after a failed join attempt (source
lines 208-234): re-scan the access points (fatal on error), then
recreate the portal (fatal on error), then return to the loop. -/
def connect_recreate (s : LoopState) (env : ConnectEnv) : StepResult :=
  match get_access_points env.scan2 with
  | .error e =>
    .exit (Except.error ("Getting access points failed: " ++ e))
      ([Event.scan] ++
        exit_with_result_trace s.portal_connection env.exit_stop_ok
          (Except.error ("Getting access points failed: " ++ e)))
  | .ok (aps, _sleeps) =>
    let s1 : LoopState := { s with access_points := aps }
    match env.create_portal_res with
    | .ok conn =>
      .next { s1 with portal_connection := some conn }
        [Event.scan, Event.portalCreate conn]
    | .error e =>
      .exit (Except.error ("Creating the access point failed: " ++ e))
        ([Event.scan] ++
          exit_with_result_trace s1.portal_connection env.exit_stop_ok
            (Except.error ("Creating the access point failed: " ++ e)))

/-- Connect handler after the portal teardown (source lines 147-234):
re-scan, locate the requested ssid (the source unwraps the Option here,
so an absent ssid panics), attempt the join, verify connectivity on an
activated join (success exits the session), otherwise best-effort
delete the created connection and fall through to connect_recreate. -/
def connect_after_teardown (s : LoopState) (ssid : String) (env : ConnectEnv) :
    StepResult :=
  match get_access_points env.scan1 with
  | .error e =>
    .exit (Except.error ("Getting access points failed: " ++ e))
      ([Event.scan] ++
        exit_with_result_trace s.portal_connection env.exit_stop_ok
          (Except.error ("Getting access points failed: " ++ e)))
  | .ok (aps, _sleeps) =>
    let s1 : LoopState := { s with access_points := aps }
    match find_access_point s1.access_points ssid with
    | none => .panicked "called Option::unwrap() on a None value" [Event.scan]
    | some (_ap, access_point_ssid) =>
      match env.join with
      | .ok (_conn, state) =>
        if state = ConnectionState.Activated then
          match wait_for_connectivity env.connectivity 20 with
          | .ok (true, _t) =>
            .exit (Except.ok ())
              ([Event.scan, Event.joinAttempt access_point_ssid] ++
                exit_with_result_trace s1.portal_connection env.exit_stop_ok
                  (Except.ok ()))
          | .ok (false, _t) =>
            (connect_recreate s1 env).prepend
              [Event.scan, Event.joinAttempt access_point_ssid,
                connDeleteEvent env.delete_ok]
          | .error _e =>
            (connect_recreate s1 env).prepend
              [Event.scan, Event.joinAttempt access_point_ssid,
                connDeleteEvent env.delete_ok]
        else
          (connect_recreate s1 env).prepend
            [Event.scan, Event.joinAttempt access_point_ssid,
              connDeleteEvent env.delete_ok]
      | .error _e =>
        (connect_recreate s1 env).prepend
          [Event.scan, Event.joinAttempt access_point_ssid]

/-- Connect handler (source lines 132-235): if a portal connection is
held, tear it down first; a teardown failure is escalated to an error
exit with the connection still held. -/
def process_connect (s : LoopState) (ssid : String) (env : ConnectEnv) :
    StepResult :=
  match s.portal_connection with
  | some conn =>
    if env.stop_portal_ok then
      (connect_after_teardown { s with portal_connection := none } ssid env).prepend
        (stop_portal_trace true)
    else
      .exit (Except.error ("Stopping the access point failed: " ++ env.stop_portal_err))
        (stop_portal_trace false ++
          exit_with_result_trace (some conn) env.exit_stop_ok
            (Except.error ("Stopping the access point failed: " ++ env.stop_portal_err)))
  | none => connect_after_teardown s ssid env

/-- One iteration of the source main loop (lines 83-237): receive
failure sleeps one second then error-exits; Activate sets the activated
flag, recomputes the ssid list from the current snapshot (unwrap panics
modelled as none) and sends it, a send failure error-exits; Timeout
success-exits only when the activated flag is still false; Connect is
process_connect. -/
def process_command (s : LoopState) (i : LoopInput) : StepResult :=
  match i with
  | .recvErr msg stop_ok =>
    .exit (Except.error ("Receiving network command failed: " ++ msg))
      (Event.sleep ::
        exit_with_result_trace s.portal_connection stop_ok
          (Except.error ("Receiving network command failed: " ++ msg)))
  | .activate send_ok send_err stop_ok =>
    match get_access_points_ssids_owned s.access_points with
    | none => .panicked "called Option::unwrap() on a None value" []
    | some ssids =>
      if send_ok then
        .next { s with activated := true } [Event.respond ssids]
      else
        .exit (Except.error ("Sending access point ssids results failed: " ++ send_err))
          (exit_with_result_trace s.portal_connection stop_ok
            (Except.error ("Sending access point ssids results failed: " ++ send_err)))
  | .timeout stop_ok =>
    if s.activated = false then
      .exit (Except.ok ())
        (exit_with_result_trace s.portal_connection stop_ok (Except.ok ()))
    else
      .next s []
  | .connect ssid _passphrase env => process_connect s ssid env

/-- Terminal status of a session run. -/
inductive SessionResult
  | running (s : LoopState)
  | exited (r : ExitResult)
  | panicked (msg : String)
deriving DecidableEq, Repr

/-- The source main loop over a finite input script; an exhausted script
leaves the session running (blocked on the channel). The accumulated
event trace is returned alongside. -/
def run_loop : LoopState → List LoopInput → List Event →
    SessionResult × List Event
  | s, [], tr => (SessionResult.running s, tr)
  | s, i :: rest, tr =>
    match process_command s i with
    | .next s1 tr1 => run_loop s1 rest (tr ++ tr1)
    | .exit r tr1 => (SessionResult.exited r, tr ++ tr1)
    | .panicked m tr1 => (SessionResult.panicked m, tr ++ tr1)

/-- Oracle outcomes for the one-time setup: device resolution, the
initial scan, the initial portal creation, and the helper start. The
helper start (start_dnsmasq, code outside src/) is abstracted to its
Result; the source unwraps it. -/
structure SetupEnv where
  manager : NetworkManager
  scan0 : Nat → Except String (List AccessPoint)
  create_portal_res : Except String Connection
  dnsmasq_res : Except String Unit

/-- Source process_network_commands (lines 27-238). Failures during
device resolution, the initial scan and the initial portal creation
return through the crate-root exit helper. Modelled from the spec: the
crate-root exit function (code outside src/) sends the single error
ExitResult to the process exit channel. The helper start is unwrapped by
the source, so its failure panics without any ExitResult. On success
the main loop runs with the helper started. -/
def process_network_commands (config : Config) (senv : SetupEnv)
    (inputs : List LoopInput) : SessionResult × List Event :=
  match find_device senv.manager config.interface with
  | .error e => (SessionResult.exited (Except.error e), [Event.exitSend (Except.error e)])
  | .ok _device =>
    match get_access_points senv.scan0 with
    | .error e =>
      (SessionResult.exited (Except.error ("Getting access points failed: " ++ e)),
        [Event.scan, Event.exitSend (Except.error ("Getting access points failed: " ++ e))])
    | .ok (access_points, _sleeps) =>
      match senv.create_portal_res with
      | .error e =>
        (SessionResult.exited (Except.error ("Creating the access point failed: " ++ e)),
          [Event.scan,
            Event.exitSend (Except.error ("Creating the access point failed: " ++ e))])
      | .ok conn =>
        match senv.dnsmasq_res with
        | .error e =>
          (SessionResult.panicked ("called Result::unwrap() on an Err value: " ++ e),
            [Event.scan, Event.portalCreate conn])
        | .ok _ =>
          run_loop
            { access_points := access_points, portal_connection := some conn,
              activated := false }
            inputs
            [Event.scan, Event.portalCreate conn, Event.helperStart]

/-- Event classifier: helper kill. -/
def Event.isKill : Event → Bool
  | .helperKill => true
  | _ => false

/-- Event classifier: ExitResult send. -/
def Event.isSend : Event → Bool
  | .exitSend _ => true
  | _ => false

/-- Number of helper kills in a trace. -/
def countKill (tr : List Event) : Nat :=
  tr.countP Event.isKill

/-- Number of ExitResult sends in a trace. -/
def countSend (tr : List Event) : Nat :=
  tr.countP Event.isSend

/-- Portal-liveness checker. Starting from live hotspot profiles, walk
the trace: a creation is legal only when no profile is live, a stop
attempt only when exactly one is; a successful stop removes the profile,
a failed one leaves it. The result is the final count, or none when some
event was illegal. A trace accepted from 0 therefore never holds two
profiles at once and never creates a profile before the prior one is
fully deactivated and deleted. -/
def portalLive : List Event → Nat → Option Nat
  | [], live => some live
  | Event.portalCreate _ :: tr, live =>
    if live = 0 then portalLive tr 1 else none
  | Event.portalStopOk :: tr, live =>
    if live = 1 then portalLive tr 0 else none
  | Event.portalStopFail :: tr, live =>
    if live = 1 then portalLive tr 1 else none
  | Event.helperStart :: tr, live => portalLive tr live
  | Event.helperKill :: tr, live => portalLive tr live
  | Event.sleep :: tr, live => portalLive tr live
  | Event.scan :: tr, live => portalLive tr live
  | Event.joinAttempt _ :: tr, live => portalLive tr live
  | Event.connDeleteOk :: tr, live => portalLive tr live
  | Event.connDeleteFail :: tr, live => portalLive tr live
  | Event.respond _ :: tr, live => portalLive tr live
  | Event.exitSend _ :: tr, live => portalLive tr live

lemma countKill_nil : countKill [] = 0 := rfl

lemma countSend_nil : countSend [] = 0 := rfl

lemma countKill_append (a b : List Event) :
    countKill (a ++ b) = countKill a + countKill b := by
  simp [countKill, List.countP_append]

lemma countSend_append (a b : List Event) :
    countSend (a ++ b) = countSend a + countSend b := by
  simp [countSend, List.countP_append]

lemma portalLive_append (a b : List Event) (n : Nat) :
    portalLive (a ++ b) n = (portalLive a n).bind (fun m => portalLive b m) := by
  induction a generalizing n with
  | nil => simp [portalLive]
  | cons e tl ih =>
    cases e <;> simp only [List.cons_append, portalLive] <;>
      first
        | exact ih _
        | (split <;> simp [ih])

lemma portalLive_le_one (tr : List Event) (n m : Nat)
    (h : portalLive tr n = some m) (hn : n ≤ 1) : m ≤ 1 := by
  induction tr generalizing n with
  | nil => simp [portalLive] at h; omega
  | cons e tl ih =>
    cases e <;> simp only [portalLive] at h <;>
      first
        | exact ih _ h hn
        | (split at h
           · exact ih _ h (by omega)
           · exact absurd h (by simp))

lemma get_access_points_loop_decod (scan : Nat → Except String (List AccessPoint)) :
    ∀ fuel retries sleeps aps n,
      get_access_points_loop scan fuel retries sleeps = Except.ok (aps, n) →
      decodOK aps := by
  intro fuel
  induction fuel with
  | zero =>
    intro r s aps n h
    simp only [get_access_points_loop, Except.ok.injEq, Prod.mk.injEq] at h
    rw [← h.1]
    intro ap hap
    simp at hap
  | succ f ih =>
    intro r s aps n h
    simp only [get_access_points_loop] at h
    cases hscan : scan r with
    | error e => rw [hscan] at h; exact absurd h (by simp)
    | ok raw =>
      rw [hscan] at h
      try dsimp only at h
      split at h
      · exact ih _ _ _ _ h
      · simp only [Except.ok.injEq, Prod.mk.injEq] at h
        rw [← h.1]
        intro ap hap
        exact (List.mem_filter.mp hap).2

lemma get_access_points_decod (scan : Nat → Except String (List AccessPoint))
    (aps : List AccessPoint) (n : Nat)
    (h : get_access_points scan = Except.ok (aps, n)) : decodOK aps :=
  get_access_points_loop_decod scan 10 0 0 aps n h

lemma ssids_owned_of_decod (aps : List AccessPoint) (h : decodOK aps) :
    get_access_points_ssids_owned aps = some (ssid_texts aps) := by
  induction aps with
  | nil => rfl
  | cons ap tl ih =>
    have h1 : ap.ssid_utf8.isSome = true := h ap (by simp)
    obtain ⟨s, hs⟩ := Option.isSome_iff_exists.mp h1
    have h2 : decodOK tl := fun x hx => h x (by simp [hx])
    simp [get_access_points_ssids_owned, hs, ih h2, ssid_texts]

lemma ssids_of_decod (aps : List AccessPoint) (h : decodOK aps) :
    get_access_points_ssids aps = some (ssid_texts aps) := by
  induction aps with
  | nil => rfl
  | cons ap tl ih =>
    have h1 : ap.ssid_utf8.isSome = true := h ap (by simp)
    obtain ⟨s, hs⟩ := Option.isSome_iff_exists.mp h1
    have h2 : decodOK tl := fun x hx => h x (by simp [hx])
    simp [get_access_points_ssids, hs, ih h2, ssid_texts]

/-- The three possible portal-stop segments of an exit trace: no portal
held, portal stopped successfully, stop attempt failed. -/
def stopShape (tr : List Event) : Prop :=
  tr = [] ∨ tr = [Event.portalStopOk, Event.sleep] ∨ tr = [Event.portalStopFail]

/-- Obligations on the result of one command, relative to the number a
of live portal profiles on entry: a continuing step kills no helper,
sends no ExitResult and moves the portal count to that of the new state;
an exiting step is an arbitrary kill-free send-free prefix followed by
exactly the unified exit routine (helper kill, then a portal stop
exactly when a profile is held, then the single ExitResult); a panic
kills no helper and sends nothing. All traces pass the portal-liveness
checker. -/
def stepOKAux (a : Nat) : StepResult → Prop
  | .next s1 tr =>
    countKill tr = 0 ∧ countSend tr = 0 ∧ portalLive tr a = some (portalCount s1)
  | .exit r tr => ∃ pre stopPart m,
    tr = pre ++ Event.helperKill :: (stopPart ++ [Event.exitSend r]) ∧
    countKill pre = 0 ∧ countSend pre = 0 ∧ stopShape stopPart ∧
    portalLive pre a = some m ∧ (stopPart = [] ↔ m = 0) ∧
    (portalLive tr a).isSome = true
  | .panicked _ tr =>
    countKill tr = 0 ∧ countSend tr = 0 ∧ (portalLive tr a).isSome = true

lemma stepOKAux_exit_site (a : Nat) (pre : List Event) (p : Option Connection)
    (ok : Bool) (r : ExitResult)
    (h1 : countKill pre = 0) (h2 : countSend pre = 0)
    (h3 : portalLive pre a = some (portalCountOpt p)) :
    stepOKAux a (StepResult.exit r (pre ++ exit_with_result_trace p ok r)) := by
  cases p with
  | none =>
    refine ⟨pre, [], 0, rfl, h1, h2, Or.inl rfl, ?_, by simp, ?_⟩
    · simpa [portalCountOpt] using h3
    · rw [portalLive_append]
      simp only [portalCountOpt] at h3
      simp [h3, exit_with_result_trace, portalLive]
  | some c =>
    cases ok with
    | true =>
      refine ⟨pre, [Event.portalStopOk, Event.sleep], 1, ?_, h1, h2,
        Or.inr (Or.inl rfl), ?_, by simp, ?_⟩
      · simp [exit_with_result_trace, stop_portal_trace]
      · simpa [portalCountOpt] using h3
      · rw [portalLive_append]
        simp only [portalCountOpt] at h3
        simp [h3, exit_with_result_trace, stop_portal_trace, portalLive]
    | false =>
      refine ⟨pre, [Event.portalStopFail], 1, ?_, h1, h2,
        Or.inr (Or.inr rfl), ?_, by simp, ?_⟩
      · simp [exit_with_result_trace, stop_portal_trace]
      · simpa [portalCountOpt] using h3
      · rw [portalLive_append]
        simp only [portalCountOpt] at h3
        simp [h3, exit_with_result_trace, stop_portal_trace, portalLive]

lemma stepOKAux_prepend (tr0 : List Event) (a b : Nat) (res : StepResult)
    (h0k : countKill tr0 = 0) (h0s : countSend tr0 = 0)
    (h0p : portalLive tr0 a = some b)
    (h : stepOKAux b res) : stepOKAux a (res.prepend tr0) := by
  cases res with
  | next s1 tr =>
    obtain ⟨hk, hs, hp⟩ := h
    show countKill (tr0 ++ tr) = 0 ∧ countSend (tr0 ++ tr) = 0 ∧
      portalLive (tr0 ++ tr) a = some (portalCount s1)
    refine ⟨?_, ?_, ?_⟩
    · simp [countKill_append, h0k, hk]
    · simp [countSend_append, h0s, hs]
    · rw [portalLive_append, h0p]
      simpa using hp
  | exit r tr =>
    obtain ⟨pre, stopPart, m, htr, hk, hs, hshape, hlive, hiff, hall⟩ := h
    show ∃ pre2 stopPart2 m2,
      tr0 ++ tr = pre2 ++ Event.helperKill :: (stopPart2 ++ [Event.exitSend r]) ∧
      countKill pre2 = 0 ∧ countSend pre2 = 0 ∧ stopShape stopPart2 ∧
      portalLive pre2 a = some m2 ∧ (stopPart2 = [] ↔ m2 = 0) ∧
      (portalLive (tr0 ++ tr) a).isSome = true
    refine ⟨tr0 ++ pre, stopPart, m, ?_, ?_, ?_, hshape, ?_, hiff, ?_⟩
    · rw [htr, List.append_assoc]
    · simp [countKill_append, h0k, hk]
    · simp [countSend_append, h0s, hs]
    · rw [portalLive_append, h0p]
      simpa using hlive
    · rw [portalLive_append, h0p]
      simpa using hall
  | panicked msg tr =>
    obtain ⟨hk, hs, hall⟩ := h
    show countKill (tr0 ++ tr) = 0 ∧ countSend (tr0 ++ tr) = 0 ∧
      (portalLive (tr0 ++ tr) a).isSome = true
    refine ⟨?_, ?_, ?_⟩
    · simp [countKill_append, h0k, hk]
    · simp [countSend_append, h0s, hs]
    · rw [portalLive_append, h0p]
      simpa using hall

lemma countKill_joinDelete (x : String) (b : Bool) :
    countKill [Event.scan, Event.joinAttempt x, connDeleteEvent b] = 0 := by
  cases b <;> rfl

lemma countSend_joinDelete (x : String) (b : Bool) :
    countSend [Event.scan, Event.joinAttempt x, connDeleteEvent b] = 0 := by
  cases b <;> rfl

lemma portalLive_joinDelete (x : String) (b : Bool) (n : Nat) :
    portalLive [Event.scan, Event.joinAttempt x, connDeleteEvent b] n = some n := by
  cases b <;> rfl

lemma connect_recreate_OK (s : LoopState) (env : ConnectEnv)
    (hp : s.portal_connection = none) :
    stepOKAux 0 (connect_recreate s env) := by
  obtain ⟨aps0, p0, act0⟩ := s
  cases hp
  simp only [connect_recreate]
  cases hscan : get_access_points env.scan2 with
  | error e =>
    try dsimp only
    exact stepOKAux_exit_site 0 [Event.scan] none env.exit_stop_ok _ rfl rfl rfl
  | ok pr =>
    obtain ⟨aps, n⟩ := pr
    try dsimp only
    cases hcreate : env.create_portal_res with
    | ok conn => exact ⟨rfl, rfl, rfl⟩
    | error e =>
      try dsimp only
      exact stepOKAux_exit_site 0 [Event.scan] none env.exit_stop_ok _ rfl rfl rfl

lemma connect_after_teardown_OK (s : LoopState) (ssid : String) (env : ConnectEnv)
    (hp : s.portal_connection = none) :
    stepOKAux 0 (connect_after_teardown s ssid env) := by
  obtain ⟨aps0, p0, act0⟩ := s
  cases hp
  simp only [connect_after_teardown]
  cases hscan : get_access_points env.scan1 with
  | error e =>
    try dsimp only
    exact stepOKAux_exit_site 0 [Event.scan] none env.exit_stop_ok _ rfl rfl rfl
  | ok pr =>
    obtain ⟨aps, n⟩ := pr
    try dsimp only
    cases hfind : find_access_point aps ssid with
    | none => exact ⟨rfl, rfl, rfl⟩
    | some pr2 =>
      obtain ⟨ap, apssid⟩ := pr2
      try dsimp only
      cases hjoin : env.join with
      | error e =>
        try dsimp only
        exact stepOKAux_prepend [Event.scan, Event.joinAttempt apssid] 0 0 _
          rfl rfl rfl (connect_recreate_OK _ env rfl)
      | ok pr3 =>
        obtain ⟨conn, st⟩ := pr3
        try dsimp only
        by_cases hst : st = ConnectionState.Activated
        · rw [if_pos hst]
          cases hwait : wait_for_connectivity env.connectivity 20 with
          | error e2 =>
            try dsimp only
            exact stepOKAux_prepend
              [Event.scan, Event.joinAttempt apssid, connDeleteEvent env.delete_ok]
              0 0 _ (countKill_joinDelete _ _) (countSend_joinDelete _ _)
              (portalLive_joinDelete _ _ _) (connect_recreate_OK _ env rfl)
          | ok pr4 =>
            obtain ⟨b, t⟩ := pr4
            cases b with
            | true =>
              try dsimp only
              exact stepOKAux_exit_site 0 [Event.scan, Event.joinAttempt apssid]
                none env.exit_stop_ok _ rfl rfl rfl
            | false =>
              try dsimp only
              exact stepOKAux_prepend
                [Event.scan, Event.joinAttempt apssid, connDeleteEvent env.delete_ok]
                0 0 _ (countKill_joinDelete _ _) (countSend_joinDelete _ _)
                (portalLive_joinDelete _ _ _) (connect_recreate_OK _ env rfl)
        · rw [if_neg hst]
          exact stepOKAux_prepend
            [Event.scan, Event.joinAttempt apssid, connDeleteEvent env.delete_ok]
            0 0 _ (countKill_joinDelete _ _) (countSend_joinDelete _ _)
            (portalLive_joinDelete _ _ _) (connect_recreate_OK _ env rfl)

lemma process_connect_OK (s : LoopState) (ssid : String) (env : ConnectEnv) :
    stepOKAux (portalCount s) (process_connect s ssid env) := by
  obtain ⟨aps0, p0, act0⟩ := s
  cases p0 with
  | none =>
    simp only [process_connect]
    exact connect_after_teardown_OK ⟨aps0, none, act0⟩ ssid env rfl
  | some conn =>
    simp only [process_connect]
    try dsimp only
    cases hstop : env.stop_portal_ok with
    | true =>
      rw [if_pos rfl]
      exact stepOKAux_prepend (stop_portal_trace true) 1 0 _ rfl rfl rfl
        (connect_after_teardown_OK _ ssid env rfl)
    | false =>
      rw [if_neg (by simp)]
      exact stepOKAux_exit_site 1 (stop_portal_trace false) (some conn)
        env.exit_stop_ok _ rfl rfl rfl

lemma process_command_OK (s : LoopState) (i : LoopInput) :
    stepOKAux (portalCount s) (process_command s i) := by
  cases i with
  | recvErr msg stop_ok =>
    simp only [process_command]
    exact stepOKAux_exit_site (portalCount s) [Event.sleep] s.portal_connection
      stop_ok _ rfl rfl rfl
  | activate send_ok send_err stop_ok =>
    simp only [process_command]
    cases hss : get_access_points_ssids_owned s.access_points with
    | none => exact ⟨rfl, rfl, rfl⟩
    | some ssids =>
      try dsimp only
      cases hsend : send_ok with
      | true =>
        rw [if_pos rfl]
        exact ⟨rfl, rfl, rfl⟩
      | false =>
        rw [if_neg (by simp)]
        exact stepOKAux_exit_site (portalCount s) [] s.portal_connection stop_ok
          _ rfl rfl rfl
  | timeout stop_ok =>
    obtain ⟨aps0, p0, act0⟩ := s
    simp only [process_command]
    cases act0 with
    | false =>
      rw [if_pos rfl]
      exact stepOKAux_exit_site (portalCount ⟨aps0, p0, false⟩) [] p0 stop_ok
        _ rfl rfl rfl
    | true =>
      rw [if_neg (by simp)]
      exact ⟨rfl, rfl, rfl⟩
  | connect ssid pass env =>
    simp only [process_command]
    exact process_connect_OK s ssid env

lemma StepResult.prepend_eq_next (tr0 : List Event) (res : StepResult)
    (s1 : LoopState) (tr : List Event)
    (h : res.prepend tr0 = StepResult.next s1 tr) :
    ∃ tr2, res = StepResult.next s1 tr2 := by
  cases res with
  | next s2 tr2 =>
    simp only [StepResult.prepend, StepResult.next.injEq] at h
    exact ⟨tr2, by rw [h.1]⟩
  | exit r tr2 => simp [StepResult.prepend] at h
  | panicked m tr2 => simp [StepResult.prepend] at h

lemma connect_recreate_next (s : LoopState) (env : ConnectEnv)
    (s1 : LoopState) (tr : List Event)
    (h : connect_recreate s env = StepResult.next s1 tr) :
    s1.activated = s.activated ∧ decodOK s1.access_points := by
  cases hscan : get_access_points env.scan2 with
  | error e => simp [connect_recreate, hscan] at h
  | ok pr =>
    obtain ⟨aps, n⟩ := pr
    cases hcreate : env.create_portal_res with
    | error e => simp [connect_recreate, hscan, hcreate] at h
    | ok conn =>
      simp only [connect_recreate, hscan, hcreate, StepResult.next.injEq] at h
      rw [← h.1]
      exact ⟨rfl, get_access_points_decod env.scan2 aps n hscan⟩

lemma connect_after_teardown_next (s : LoopState) (ssid : String)
    (env : ConnectEnv) (s1 : LoopState) (tr : List Event)
    (h : connect_after_teardown s ssid env = StepResult.next s1 tr) :
    s1.activated = s.activated ∧ decodOK s1.access_points := by
  cases hscan : get_access_points env.scan1 with
  | error e => simp [connect_after_teardown, hscan] at h
  | ok pr =>
    obtain ⟨aps, n⟩ := pr
    cases hfind : find_access_point aps ssid with
    | none => simp [connect_after_teardown, hscan, hfind] at h
    | some pr2 =>
      obtain ⟨ap, apssid⟩ := pr2
      cases hjoin : env.join with
      | error e =>
        simp only [connect_after_teardown, hscan, hfind, hjoin] at h
        obtain ⟨tr2, h2⟩ := StepResult.prepend_eq_next _ _ _ _ h
        exact connect_recreate_next _ env _ _ h2
      | ok pr3 =>
        obtain ⟨conn, st⟩ := pr3
        by_cases hst : st = ConnectionState.Activated
        · subst hst
          simp only [connect_after_teardown, hscan, hfind, hjoin, if_true] at h
          cases hwait : wait_for_connectivity env.connectivity 20 with
          | error e2 =>
            simp only [hwait] at h
            obtain ⟨tr2, h2⟩ := StepResult.prepend_eq_next _ _ _ _ h
            have h3 := connect_recreate_next _ env _ _ h2
            exact ⟨h3.1, h3.2⟩
          | ok pr4 =>
            obtain ⟨b, t⟩ := pr4
            cases b with
            | true =>
              simp only [hwait] at h
              exact absurd h (by simp)
            | false =>
              simp only [hwait] at h
              obtain ⟨tr2, h2⟩ := StepResult.prepend_eq_next _ _ _ _ h
              have h3 := connect_recreate_next _ env _ _ h2
              exact ⟨h3.1, h3.2⟩
        · simp only [connect_after_teardown, hscan, hfind, hjoin] at h
          rw [if_neg hst] at h
          obtain ⟨tr2, h2⟩ := StepResult.prepend_eq_next _ _ _ _ h
          have h3 := connect_recreate_next _ env _ _ h2
          exact ⟨h3.1, h3.2⟩

lemma process_connect_next (s : LoopState) (ssid : String) (env : ConnectEnv)
    (s1 : LoopState) (tr : List Event)
    (h : process_connect s ssid env = StepResult.next s1 tr) :
    s1.activated = s.activated ∧ decodOK s1.access_points := by
  cases hp : s.portal_connection with
  | none =>
    simp only [process_connect, hp] at h
    exact connect_after_teardown_next s ssid env s1 tr h
  | some conn =>
    cases hstop : env.stop_portal_ok with
    | true =>
      simp only [process_connect, hp] at h
      rw [hstop, if_pos rfl] at h
      obtain ⟨tr2, h2⟩ := StepResult.prepend_eq_next _ _ _ _ h
      have h3 := connect_after_teardown_next _ ssid env _ _ h2
      exact ⟨h3.1, h3.2⟩
    | false =>
      simp [process_connect, hp, hstop] at h

lemma process_command_next (s : LoopState) (i : LoopInput) (s1 : LoopState)
    (tr : List Event)
    (h : process_command s i = StepResult.next s1 tr) :
    (s.activated = true → s1.activated = true) ∧
    (decodOK s.access_points → decodOK s1.access_points) := by
  cases i with
  | recvErr msg stop_ok => simp [process_command] at h
  | activate send_ok send_err stop_ok =>
    cases hss : get_access_points_ssids_owned s.access_points with
    | none => simp [process_command, hss] at h
    | some ssids =>
      cases hsend : send_ok with
      | true =>
        simp only [process_command, hss] at h
        rw [hsend, if_pos rfl, StepResult.next.injEq] at h
        rw [← h.1]
        exact ⟨fun _ => rfl, fun hd => hd⟩
      | false => simp [process_command, hss, hsend] at h
  | timeout stop_ok =>
    cases hact : s.activated with
    | false => simp [process_command, hact] at h
    | true =>
      simp only [process_command, hact, if_neg (by simp : ¬(true = false)),
        StepResult.next.injEq] at h
      rw [← h.1]
      exact ⟨fun _ => hact, fun hd => hd⟩
  | connect ssid pass env =>
    simp only [process_command] at h
    have h2 := process_connect_next s ssid env s1 tr h
    exact ⟨fun ha => by rw [h2.1]; exact ha, fun _ => h2.2⟩

lemma countKill_cons (e : Event) (tr : List Event) :
    countKill (e :: tr) = countKill tr + (if Event.isKill e then 1 else 0) := by
  simp [countKill, List.countP_cons]

lemma countSend_cons (e : Event) (tr : List Event) :
    countSend (e :: tr) = countSend tr + (if Event.isSend e then 1 else 0) := by
  simp [countSend, List.countP_cons]

lemma stopShape_counts (sp : List Event) (h : stopShape sp) :
    countKill sp = 0 ∧ countSend sp = 0 := by
  rcases h with h | h | h <;> subst h <;> exact ⟨rfl, rfl⟩

lemma exited_counts (tr pre stopPart : List Event) (r : ExitResult)
    (htr : tr = pre ++ Event.helperKill :: (stopPart ++ [Event.exitSend r]))
    (hk : countKill pre = 0) (hs : countSend pre = 0)
    (hshape : stopShape stopPart) :
    countKill tr = 1 ∧ countSend tr = 1 := by
  obtain ⟨hk2, hs2⟩ := stopShape_counts stopPart hshape
  subst htr
  constructor
  · rw [countKill_append, countKill_cons, countKill_append, hk, hk2]
    rfl
  · rw [countSend_append, countSend_cons, countSend_append, hs, hs2]
    rfl

/-- Session-trace obligations: a still-running session has killed no
helper, sent no ExitResult and its trace tracks the portal count of the
current state; an exited session ends in exactly the unified exit
routine; a panicked session has killed no helper and sent nothing. -/
def sessionOK : SessionResult × List Event → Prop
  | (SessionResult.running s1, tr) =>
    countKill tr = 0 ∧ countSend tr = 0 ∧
    portalLive tr 0 = some (portalCount s1) ∧ decodOK s1.access_points
  | (SessionResult.exited r, tr) => ∃ pre stopPart m,
    tr = pre ++ Event.helperKill :: (stopPart ++ [Event.exitSend r]) ∧
    countKill pre = 0 ∧ countSend pre = 0 ∧ stopShape stopPart ∧
    portalLive pre 0 = some m ∧ (stopPart = [] ↔ m = 0) ∧
    (portalLive tr 0).isSome = true
  | (SessionResult.panicked _, tr) =>
    countKill tr = 0 ∧ countSend tr = 0 ∧ (portalLive tr 0).isSome = true

lemma run_loop_OK : ∀ (inputs : List LoopInput) (s : LoopState)
    (trAcc : List Event),
    countKill trAcc = 0 → countSend trAcc = 0 →
    portalLive trAcc 0 = some (portalCount s) →
    decodOK s.access_points →
    sessionOK (run_loop s inputs trAcc) := by
  intro inputs
  induction inputs with
  | nil =>
    intro s trAcc h1 h2 h3 h4
    exact ⟨h1, h2, h3, h4⟩
  | cons i rest ih =>
    intro s trAcc h1 h2 h3 h4
    have hstep := process_command_OK s i
    cases hres : process_command s i with
    | next s1 tr1 =>
      rw [hres] at hstep
      obtain ⟨hk, hs, hp⟩ := hstep
      simp only [run_loop, hres]
      apply ih s1 (trAcc ++ tr1)
      · simp [countKill_append, h1, hk]
      · simp [countSend_append, h2, hs]
      · rw [portalLive_append, h3]
        simpa using hp
      · exact (process_command_next s i s1 tr1 hres).2 h4
    | exit r tr1 =>
      rw [hres] at hstep
      obtain ⟨pre, stopPart, m, htr, hk, hs, hshape, hlive, hiff, hall⟩ := hstep
      simp only [run_loop, hres]
      refine ⟨trAcc ++ pre, stopPart, m, ?_, ?_, ?_, hshape, ?_, hiff, ?_⟩
      · rw [htr, List.append_assoc]
      · simp [countKill_append, h1, hk]
      · simp [countSend_append, h2, hs]
      · rw [portalLive_append, h3]
        simpa using hlive
      · rw [portalLive_append, h3]
        simpa using hall
    | panicked msg tr1 =>
      rw [hres] at hstep
      obtain ⟨hk, hs, hall⟩ := hstep
      simp only [run_loop, hres]
      refine ⟨?_, ?_, ?_⟩
      · simp [countKill_append, h1, hk]
      · simp [countSend_append, h2, hs]
      · rw [portalLive_append, h3]
        simpa using hall

lemma run_loop_append_exited : ∀ (inputs more : List LoopInput) (s : LoopState)
    (trAcc : List Event) (r : ExitResult) (tr : List Event),
    run_loop s inputs trAcc = (SessionResult.exited r, tr) →
    run_loop s (inputs ++ more) trAcc = (SessionResult.exited r, tr) := by
  intro inputs
  induction inputs with
  | nil =>
    intro more s trAcc r tr h
    simp [run_loop] at h
  | cons i rest ih =>
    intro more s trAcc r tr h
    simp only [run_loop] at h
    rw [List.cons_append]
    simp only [run_loop]
    cases hres : process_command s i with
    | next s1 tr1 =>
      simp only [hres] at h ⊢
      exact ih more s1 _ r tr h
    | exit r1 tr1 =>
      simp only [hres] at h ⊢
      exact h
    | panicked m tr1 =>
      simp only [hres] at h
      exact absurd h (by simp)

/-- Whole-session obligations, covering the pre-helper setup exits as
well as the main loop. -/
def pncOK : SessionResult × List Event → Prop
  | (SessionResult.running s1, tr) =>
    countKill tr = 0 ∧ countSend tr = 0 ∧ (portalLive tr 0).isSome = true ∧
    decodOK s1.access_points
  | (SessionResult.exited r, tr) =>
    countSend tr = 1 ∧ (portalLive tr 0).isSome = true ∧
    (Event.helperStart ∈ tr →
      ∃ pre stopPart m,
        tr = pre ++ Event.helperKill :: (stopPart ++ [Event.exitSend r]) ∧
        countKill pre = 0 ∧ countSend pre = 0 ∧ stopShape stopPart ∧
        portalLive pre 0 = some m ∧ (stopPart = [] ↔ m = 0) ∧ countKill tr = 1)
  | (SessionResult.panicked _, tr) =>
    countKill tr = 0 ∧ countSend tr = 0 ∧ (portalLive tr 0).isSome = true

lemma sessionOK_to_pncOK (p : SessionResult × List Event)
    (h : sessionOK p) : pncOK p := by
  obtain ⟨res, tr⟩ := p
  cases res with
  | running s1 =>
    obtain ⟨h1, h2, h3, h4⟩ := h
    exact ⟨h1, h2, by rw [h3]; rfl, h4⟩
  | exited r =>
    obtain ⟨pre, stopPart, m, htr, hk, hs, hshape, hlive, hiff, hall⟩ := h
    obtain ⟨hck, hcs⟩ := exited_counts tr pre stopPart r htr hk hs hshape
    exact ⟨hcs, hall,
      fun _ => ⟨pre, stopPart, m, htr, hk, hs, hshape, hlive, hiff, hck⟩⟩
  | panicked m => exact h

lemma pnc_OK (config : Config) (senv : SetupEnv) (inputs : List LoopInput) :
    pncOK (process_network_commands config senv inputs) := by
  simp only [process_network_commands]
  cases hdev : find_device senv.manager config.interface with
  | error e => exact ⟨rfl, rfl, fun hmem => absurd hmem (by simp)⟩
  | ok dev =>
    try dsimp only
    cases hscan : get_access_points senv.scan0 with
    | error e => exact ⟨rfl, rfl, fun hmem => absurd hmem (by simp)⟩
    | ok pr =>
      obtain ⟨aps, n⟩ := pr
      try dsimp only
      cases hcreate : senv.create_portal_res with
      | error e => exact ⟨rfl, rfl, fun hmem => absurd hmem (by simp)⟩
      | ok conn =>
        try dsimp only
        cases hdns : senv.dnsmasq_res with
        | error e => exact ⟨rfl, rfl, rfl⟩
        | ok u =>
          try dsimp only
          exact sessionOK_to_pncOK _
            (run_loop_OK inputs ⟨aps, some conn, false⟩
              [Event.scan, Event.portalCreate conn, Event.helperStart]
              rfl rfl rfl (get_access_points_decod senv.scan0 aps n hscan))

lemma pnc_append_exited (config : Config) (senv : SetupEnv)
    (inputs more : List LoopInput) (r : ExitResult) (tr : List Event)
    (h : process_network_commands config senv inputs = (SessionResult.exited r, tr)) :
    process_network_commands config senv (inputs ++ more) =
      (SessionResult.exited r, tr) := by
  simp only [process_network_commands] at h ⊢
  cases hdev : find_device senv.manager config.interface with
  | error e =>
    rw [hdev] at h
    simpa [hdev] using h
  | ok dev =>
    rw [hdev] at h
    simp only [hdev]
    cases hscan : get_access_points senv.scan0 with
    | error e =>
      rw [hscan] at h
      simpa [hscan] using h
    | ok pr =>
      obtain ⟨aps, n⟩ := pr
      rw [hscan] at h
      simp only [hscan]
      cases hcreate : senv.create_portal_res with
      | error e =>
        rw [hcreate] at h
        simpa [hcreate] using h
      | ok conn =>
        rw [hcreate] at h
        simp only [hcreate]
        cases hdns : senv.dnsmasq_res with
        | error e =>
          rw [hdns] at h
          simp only [hdns]
          exact absurd h (by simp)
        | ok u =>
          rw [hdns] at h
          simp only [hdns]
          try dsimp only
          try dsimp only at h
          exact run_loop_append_exited inputs more _ _ r tr h

lemma portal_prefix (tr pre suf : List Event) (htr : tr = pre ++ suf)
    (h : (portalLive tr 0).isSome = true) :
    ∃ m, portalLive pre 0 = some m ∧ m ≤ 1 := by
  subst htr
  rw [portalLive_append] at h
  cases hpre : portalLive pre 0 with
  | none => rw [hpre] at h; simp at h
  | some m => exact ⟨m, rfl, portalLive_le_one pre 0 m hpre (by omega)⟩

/-- The attempt with index i returned successfully but was empty after
the decodability filter. -/
def attemptEmptyOk (scan : Nat → Except String (List AccessPoint)) (i : Nat) : Prop :=
  ∃ raw, scan i = Except.ok raw ∧ retain_decodable raw = []

lemma loop_success (scan : Nat → Except String (List AccessPoint)) :
    ∀ (k fuel retries sleeps : Nat), k < fuel →
    (∀ i, i < k → attemptEmptyOk scan (retries + i)) →
    ∀ raw, scan (retries + k) = Except.ok raw → retain_decodable raw ≠ [] →
    get_access_points_loop scan fuel retries sleeps =
      Except.ok (retain_decodable raw, sleeps + k) := by
  intro k
  induction k with
  | zero =>
    intro fuel retries sleeps hk hemp raw hscan hne
    cases fuel with
    | zero => omega
    | succ f =>
      simp only [get_access_points_loop]
      rw [show retries + 0 = retries from rfl] at hscan
      rw [hscan]
      try dsimp only
      cases hr : retain_decodable raw with
      | nil => exact absurd hr hne
      | cons a l =>
        rw [if_neg (by simp)]
        simp
  | succ k ih =>
    intro fuel retries sleeps hk hemp raw hscan hne
    cases fuel with
    | zero => omega
    | succ f =>
      obtain ⟨raw0, hscan0, hret0⟩ := hemp 0 (by omega)
      simp only [get_access_points_loop]
      rw [show retries + 0 = retries from rfl] at hscan0
      rw [hscan0]
      try dsimp only
      rw [hret0, if_pos (show ([] : List AccessPoint).isEmpty = true from rfl)]
      have h2 := ih f (retries + 1) (sleeps + 1) (by omega)
        (fun i hi => by
          have h3 := hemp (i + 1) (by omega)
          rw [show retries + (i + 1) = retries + 1 + i from by omega] at h3
          exact h3)
        raw (by rw [show retries + 1 + k = retries + (k + 1) from by omega]; exact hscan)
        hne
      rw [show sleeps + (k + 1) = sleeps + 1 + k from by omega]
      exact h2

lemma loop_all_empty (scan : Nat → Except String (List AccessPoint)) :
    ∀ (fuel retries sleeps : Nat),
    (∀ i, i < fuel → attemptEmptyOk scan (retries + i)) →
    get_access_points_loop scan fuel retries sleeps =
      Except.ok ([], sleeps + fuel) := by
  intro fuel
  induction fuel with
  | zero => intro r s h; simp [get_access_points_loop]
  | succ f ih =>
    intro retries sleeps h
    obtain ⟨raw0, hscan0, hret0⟩ := h 0 (by omega)
    simp only [get_access_points_loop]
    rw [show retries + 0 = retries from rfl] at hscan0
    rw [hscan0]
    try dsimp only
    rw [hret0, if_pos (show ([] : List AccessPoint).isEmpty = true from rfl)]
    have h2 := ih (retries + 1) (sleeps + 1)
      (fun i hi => by
        have h3 := h (i + 1) (by omega)
        rw [show retries + (i + 1) = retries + 1 + i from by omega] at h3
        exact h3)
    rw [show sleeps + (f + 1) = sleeps + 1 + f from by omega]
    exact h2

lemma get_access_points_success (scan : Nat → Except String (List AccessPoint))
    (k : Nat) (raw : List AccessPoint) (hk : k < 10)
    (hemp : ∀ i, i < k → attemptEmptyOk scan i)
    (hscan : scan k = Except.ok raw) (hne : retain_decodable raw ≠ []) :
    get_access_points scan = Except.ok (retain_decodable raw, k) := by
  have h := loop_success scan k 10 0 0 hk
    (fun i hi => by simpa using hemp i hi) raw (by simpa using hscan) hne
  simpa [get_access_points] using h

lemma get_access_points_all_empty (scan : Nat → Except String (List AccessPoint))
    (hemp : ∀ i, i < 10 → attemptEmptyOk scan i) :
    get_access_points scan = Except.ok ([], 10) := by
  have h := loop_all_empty scan 10 0 0 (fun i hi => by simpa using hemp i hi)
  simpa [get_access_points] using h

lemma wait_loop_true (get : Nat → Except String Connectivity) (timeout : Nat) :
    ∀ (k fuel t : Nat), t + k ≤ timeout → k < fuel →
    (∀ i, i < k → ∃ c, get (t + i) = Except.ok c ∧
      ¬(c = Connectivity.Full ∨ c = Connectivity.Limited)) →
    ∀ c, get (t + k) = Except.ok c →
    (c = Connectivity.Full ∨ c = Connectivity.Limited) →
    wait_for_connectivity_loop get timeout fuel t = Except.ok (true, t + k) := by
  intro k
  induction k with
  | zero =>
    intro fuel t hle hfuel hbad c hget hgood
    cases fuel with
    | zero => omega
    | succ f =>
      simp only [wait_for_connectivity_loop]
      rw [show t + 0 = t from rfl] at hget
      rw [hget]
      try dsimp only
      rw [if_pos hgood]
      simp
  | succ k ih =>
    intro fuel t hle hfuel hbad c hget hgood
    cases fuel with
    | zero => omega
    | succ f =>
      obtain ⟨c0, hget0, hbad0⟩ := hbad 0 (by omega)
      simp only [wait_for_connectivity_loop]
      rw [show t + 0 = t from rfl] at hget0
      rw [hget0]
      try dsimp only
      rw [if_neg hbad0, if_neg (by omega : ¬ timeout ≤ t)]
      have h2 := ih f (t + 1) (by omega) (by omega)
        (fun i hi => by
          have h3 := hbad (i + 1) (by omega)
          rw [show t + (i + 1) = t + 1 + i from by omega] at h3
          exact h3)
        c (by rw [show t + 1 + k = t + (k + 1) from by omega]; exact hget) hgood
      rw [show t + (k + 1) = t + 1 + k from by omega]
      exact h2

lemma wait_loop_false (get : Nat → Except String Connectivity) (timeout : Nat) :
    ∀ (fuel t : Nat), t ≤ timeout → timeout - t < fuel →
    (∀ i, t ≤ i → i ≤ timeout → ∃ c, get i = Except.ok c ∧
      ¬(c = Connectivity.Full ∨ c = Connectivity.Limited)) →
    wait_for_connectivity_loop get timeout fuel t = Except.ok (false, timeout) := by
  intro fuel
  induction fuel with
  | zero => intro t h1 h2 h3; omega
  | succ f ih =>
    intro t h1 h2 h3
    obtain ⟨c, hget, hbad⟩ := h3 t (le_refl t) h1
    simp only [wait_for_connectivity_loop]
    rw [hget]
    try dsimp only
    rw [if_neg hbad]
    by_cases hto : timeout ≤ t
    · rw [if_pos hto]
      have h4 : t = timeout := by omega
      rw [h4]
    · rw [if_neg hto]
      exact ih (t + 1) (by omega) (by omega) (fun i hi1 hi2 => h3 i (by omega) hi2)

lemma wait_for_connectivity_true (get : Nat → Except String Connectivity)
    (timeout j : Nat) (c : Connectivity) (hj : j ≤ timeout)
    (hbad : ∀ i, i < j → ∃ c2, get i = Except.ok c2 ∧
      ¬(c2 = Connectivity.Full ∨ c2 = Connectivity.Limited))
    (hget : get j = Except.ok c)
    (hgood : c = Connectivity.Full ∨ c = Connectivity.Limited) :
    wait_for_connectivity get timeout = Except.ok (true, j) := by
  have h := wait_loop_true get timeout j (timeout + 1) 0 (by omega) (by omega)
    (fun i hi => by simpa using hbad i hi) c (by simpa using hget) hgood
  simpa [wait_for_connectivity] using h

lemma wait_for_connectivity_false (get : Nat → Except String Connectivity)
    (timeout : Nat)
    (hbad : ∀ i, i ≤ timeout → ∃ c, get i = Except.ok c ∧
      ¬(c = Connectivity.Full ∨ c = Connectivity.Limited)) :
    wait_for_connectivity get timeout = Except.ok (false, timeout) :=
  wait_loop_false get timeout (timeout + 1) 0 (by omega) (by omega)
    (fun i _ hi2 => hbad i hi2)

lemma prepend_prepend (res : StepResult) (a b : List Event) :
    (res.prepend a).prepend b = res.prepend (b ++ a) := by
  cases res <;> simp [StepResult.prepend, List.append_assoc]

lemma retain_none (raw : List AccessPoint)
    (h : ∀ ap ∈ raw, ap.ssid_utf8 = none) : retain_decodable raw = [] := by
  induction raw with
  | nil => rfl
  | cons ap tl ih =>
    have h1 := h ap (by simp)
    have h2 : retain_decodable tl = [] := ih (fun x hx => h x (by simp [hx]))
    simp [retain_decodable, h1]
    simpa [retain_decodable] using h2

/-- The join attempt of a Connect command does not end in a verified
connection: the join itself errored, or its state was not Activated, or
the connectivity wait never returned true. -/
def join_attempt_fails (env : ConnectEnv) : Prop :=
  match env.join with
  | .error _ => True
  | .ok (_, st) =>
    st = ConnectionState.Activated →
      ∀ t, wait_for_connectivity env.connectivity 20 ≠ Except.ok (true, t)

lemma connect_recreate_spec (s0 : LoopState) (env : ConnectEnv) (tr0 : List Event)
    (aps2 : List AccessPoint) (n2 : Nat)
    (hscan2 : get_access_points env.scan2 = Except.ok (aps2, n2))
    (hk0 : countKill tr0 = 0) (hs0 : countSend tr0 = 0) :
    (∀ c, env.create_portal_res = Except.ok c →
      ∃ tr, (connect_recreate s0 env).prepend tr0 =
        StepResult.next ⟨aps2, some c, s0.activated⟩ tr ∧
        countSend tr = 0 ∧ countKill tr = 0 ∧ tr = tr0 ++ [Event.scan, Event.portalCreate c]) ∧
    (∀ e, env.create_portal_res = Except.error e →
      ∃ tr, (connect_recreate s0 env).prepend tr0 =
        StepResult.exit (Except.error ("Creating the access point failed: " ++ e)) tr) := by
  constructor
  · intro c hc
    simp only [connect_recreate, hscan2, hc]
    refine ⟨tr0 ++ [Event.scan, Event.portalCreate c], rfl, ?_, ?_, rfl⟩
    · rw [countSend_append, hs0]
      rfl
    · rw [countKill_append, hk0]
      rfl
  · intro e hc
    simp only [connect_recreate, hscan2, hc]
    exact ⟨_, rfl⟩

/-- C1: the source handles a Connect for an ssid that is absent from the
refreshed scan with find_access_point(...).unwrap(), which panics: the
session terminates without any ExitResult, without killing the helper,
and with no hotspot profile left (it was already torn down). This
evaluates the embedded code at such an input: the session ends in the
panicked result. -/
theorem C1_vanished_ssid_panics :
    process_network_commands
      { interface := some "wlan0", ssid := "WiFi Connect", passphrase := none,
        activity_timeout := 600 }
      { manager :=
          { get_device_by_interface := fun _ =>
              Except.ok { interface := "wlan0", device_type := DeviceType.WiFi },
            get_devices := Except.ok [] },
        scan0 := fun _ => Except.ok [{ ssid_utf8 := some "HomeNet" }],
        create_portal_res := Except.ok { id := 0 },
        dnsmasq_res := Except.ok () }
      [LoopInput.connect "HomeNet" "secret123"
        { stop_portal_ok := true, stop_portal_err := "",
          scan1 := fun _ => Except.ok [{ ssid_utf8 := some "OtherNet" }],
          join := Except.ok ({ id := 1 }, ConnectionState.Activated),
          connectivity := fun _ => Except.ok Connectivity.Full,
          delete_ok := true,
          scan2 := fun _ => Except.ok [{ ssid_utf8 := some "OtherNet" }],
          create_portal_res := Except.ok { id := 2 }, exit_stop_ok := true }] =
      (SessionResult.panicked "called Option::unwrap() on a None value",
        [Event.scan, Event.portalCreate { id := 0 }, Event.helperStart,
          Event.portalStopOk, Event.sleep, Event.scan]) ∧
    countSend [Event.scan, Event.portalCreate { id := 0 }, Event.helperStart,
      Event.portalStopOk, Event.sleep, Event.scan] = 0 ∧
    countKill [Event.scan, Event.portalCreate { id := 0 }, Event.helperStart,
      Event.portalStopOk, Event.sleep, Event.scan] = 0 := by
  decide

/-- C2 counterexample: a failure of start_dnsmasq is unwrapped by the
source, so the session aborts by panic with zero ExitResults emitted,
contradicting the claim that exactly one ExitResult is emitted on every
exit path and that a helper-start failure ends the session with an
error ExitResult. -/
theorem C2_counterexample_helper_start :
    process_network_commands
      { interface := none, ssid := "Portal", passphrase := some "password123",
        activity_timeout := 0 }
      { manager :=
          { get_device_by_interface := fun _ => Except.error "no device",
            get_devices := Except.ok
              [{ interface := "wlan1", device_type := DeviceType.WiFi }] },
        scan0 := fun _ => Except.ok [{ ssid_utf8 := some "CafeNet" }],
        create_portal_res := Except.ok { id := 4 },
        dnsmasq_res := Except.error "No such file or directory" } [] =
      (SessionResult.panicked
        "called Result::unwrap() on an Err value: No such file or directory",
        [Event.scan, Event.portalCreate { id := 4 }]) ∧
    countSend [Event.scan, Event.portalCreate { id := 4 }] = 0 := by
  decide

/-- C2 (amended): every session emits at most one ExitResult: exactly
one on every exit path that ends with an ExitResult, and zero while
still running; a panic (in particular a failure to start the
HelperProcess, which the source unwraps) terminates the session without
emitting any ExitResult. -/
theorem C2_exactly_one_exit_result (config : Config) (senv : SetupEnv)
    (inputs : List LoopInput) :
    (∀ r tr, process_network_commands config senv inputs =
        (SessionResult.exited r, tr) → countSend tr = 1) ∧
    (∀ s tr, process_network_commands config senv inputs =
        (SessionResult.running s, tr) → countSend tr = 0) ∧
    (∀ m tr, process_network_commands config senv inputs =
        (SessionResult.panicked m, tr) → countSend tr = 0) := by
  refine ⟨?_, ?_, ?_⟩
  · intro r tr heq
    have h := pnc_OK config senv inputs
    rw [heq] at h
    exact h.1
  · intro s tr heq
    have h := pnc_OK config senv inputs
    rw [heq] at h
    exact h.2.1
  · intro m tr heq
    have h := pnc_OK config senv inputs
    rw [heq] at h
    exact h.2.1

/-- Witness for C2: a session whose named interface is not a WiFi
device exits with exactly one ExitResult. -/
theorem C2_exactly_one_exit_result_witness :
    countSend [Event.exitSend (Except.error "Not a WiFi device: eth0")] = 1 :=
  (C2_exactly_one_exit_result
    { interface := some "eth0", ssid := "Portal", passphrase := none,
      activity_timeout := 0 }
    { manager :=
        { get_device_by_interface := fun _ =>
            Except.ok { interface := "eth0", device_type := DeviceType.Ethernet },
          get_devices := Except.ok [] },
      scan0 := fun _ => Except.ok [],
      create_portal_res := Except.ok { id := 0 },
      dnsmasq_res := Except.ok () } []).1
    (Except.error "Not a WiFi device: eth0")
    [Event.exitSend (Except.error "Not a WiFi device: eth0")] (by decide)

/-- C3: at every instant at most one portal profile exists, and a new
one is never created before the prior one is fully deactivated and
deleted. Encoding: the portal-liveness checker walks every prefix of
the session trace accepting a creation only at zero live profiles and a
stop only at one, so every prefix carries a defined live count bounded
by one. -/
theorem C3_at_most_one_portal (config : Config) (senv : SetupEnv)
    (inputs : List LoopInput) (pre suf : List Event)
    (hsplit : (process_network_commands config senv inputs).2 = pre ++ suf) :
    ∃ m, portalLive pre 0 = some m ∧ m ≤ 1 := by
  have h := pnc_OK config senv inputs
  rcases hres : process_network_commands config senv inputs with ⟨res, tr⟩
  rw [hres] at h hsplit
  cases res with
  | running s1 => exact portal_prefix tr pre suf hsplit h.2.2.1
  | exited r => exact portal_prefix tr pre suf hsplit h.2.1
  | panicked m => exact portal_prefix tr pre suf hsplit h.2.2

/-- Witness for C3: a prefix of the concrete timed-out session from the
C4 witness has a defined live-portal count of at most one. -/
theorem C3_at_most_one_portal_witness :
    ∃ m, portalLive [Event.scan, Event.portalCreate { id := 3 },
      Event.helperStart, Event.helperKill] 0 = some m ∧ m ≤ 1 :=
  C3_at_most_one_portal
    { interface := some "wlan0", ssid := "Hotspot", passphrase := none,
      activity_timeout := 300 }
    { manager :=
        { get_device_by_interface := fun _ =>
            Except.ok { interface := "wlan0", device_type := DeviceType.WiFi },
          get_devices := Except.ok [] },
      scan0 := fun _ => Except.ok [{ ssid_utf8 := some "Office" }],
      create_portal_res := Except.ok { id := 3 },
      dnsmasq_res := Except.ok () }
    [LoopInput.timeout true]
    [Event.scan, Event.portalCreate { id := 3 }, Event.helperStart,
      Event.helperKill]
    [Event.portalStopOk, Event.sleep, Event.exitSend (Except.ok ())]
    (by decide)

/-- C4 counterexample: a session whose helper has been started can
terminate by the vanished-ssid panic; on that exit path the helper is
never killed and no ExitResult is sent, contradicting the claim for
every exit path. -/
theorem C4_counterexample_panic_skips_cleanup :
    process_network_commands
      { interface := some "wlan0", ssid := "Hotspot", passphrase := none,
        activity_timeout := 0 }
      { manager :=
          { get_device_by_interface := fun _ =>
              Except.ok { interface := "wlan0", device_type := DeviceType.WiFi },
            get_devices := Except.ok [] },
        scan0 := fun _ => Except.ok [{ ssid_utf8 := some "Office" }],
        create_portal_res := Except.ok { id := 7 },
        dnsmasq_res := Except.ok () }
      [LoopInput.connect "Office" "pw"
        { stop_portal_ok := true, stop_portal_err := "",
          scan1 := fun _ => Except.ok [{ ssid_utf8 := some "Lobby" }],
          join := Except.ok ({ id := 8 }, ConnectionState.Activated),
          connectivity := fun _ => Except.ok Connectivity.Full,
          delete_ok := true,
          scan2 := fun _ => Except.ok [{ ssid_utf8 := some "Lobby" }],
          create_portal_res := Except.ok { id := 9 }, exit_stop_ok := true }] =
      (SessionResult.panicked "called Option::unwrap() on a None value",
        [Event.scan, Event.portalCreate { id := 7 }, Event.helperStart,
          Event.portalStopOk, Event.sleep, Event.scan]) ∧
    Event.helperStart ∈ [Event.scan, Event.portalCreate { id := 7 },
      Event.helperStart, Event.portalStopOk, Event.sleep, Event.scan] ∧
    countKill [Event.scan, Event.portalCreate { id := 7 }, Event.helperStart,
      Event.portalStopOk, Event.sleep, Event.scan] = 0 ∧
    countSend [Event.scan, Event.portalCreate { id := 7 }, Event.helperStart,
      Event.portalStopOk, Event.sleep, Event.scan] = 0 := by
  decide

/-- C4 (amended): on every exit path that terminates the session with
an ExitResult after the helper has been started, the helper is killed
exactly once, then the portal profile, exactly when one is currently
held, is stopped best-effort, and only then is the single ExitResult
sent, as the final event; no later input is processed. Panicking paths
terminate without the exit routine. -/
theorem C4_unified_exit_path (config : Config) (senv : SetupEnv)
    (inputs : List LoopInput) (r : ExitResult) (tr : List Event)
    (hres : process_network_commands config senv inputs =
      (SessionResult.exited r, tr))
    (hstart : Event.helperStart ∈ tr) :
    (∃ pre stopPart m,
      tr = pre ++ Event.helperKill :: (stopPart ++ [Event.exitSend r]) ∧
      countKill pre = 0 ∧ countSend pre = 0 ∧ stopShape stopPart ∧
      portalLive pre 0 = some m ∧ (stopPart = [] ↔ m = 0)) ∧
    countKill tr = 1 ∧ countSend tr = 1 ∧
    (∀ more, process_network_commands config senv (inputs ++ more) =
      (SessionResult.exited r, tr)) := by
  have h := pnc_OK config senv inputs
  rw [hres] at h
  obtain ⟨hsend, hsome, hshape⟩ := h
  obtain ⟨pre, sp, m, htr, hk, hs, hsp, hlive, hiff, hck⟩ := hshape hstart
  exact ⟨⟨pre, sp, m, htr, hk, hs, hsp, hlive, hiff⟩, hck, hsend,
    fun more => pnc_append_exited config senv inputs more r tr hres⟩

/-- Witness for C4: a concrete idle-timeout session exits through the
unified exit routine, killing the helper exactly once and sending
exactly one ExitResult. -/
theorem C4_unified_exit_path_witness :
    countKill [Event.scan, Event.portalCreate { id := 3 }, Event.helperStart,
      Event.helperKill, Event.portalStopOk, Event.sleep,
      Event.exitSend (Except.ok ())] = 1 ∧
    countSend [Event.scan, Event.portalCreate { id := 3 }, Event.helperStart,
      Event.helperKill, Event.portalStopOk, Event.sleep,
      Event.exitSend (Except.ok ())] = 1 :=
  let h := C4_unified_exit_path
    { interface := some "wlan0", ssid := "Hotspot", passphrase := none,
      activity_timeout := 300 }
    { manager :=
        { get_device_by_interface := fun _ =>
            Except.ok { interface := "wlan0", device_type := DeviceType.WiFi },
          get_devices := Except.ok [] },
      scan0 := fun _ => Except.ok [{ ssid_utf8 := some "Office" }],
      create_portal_res := Except.ok { id := 3 },
      dnsmasq_res := Except.ok () }
    [LoopInput.timeout true] (Except.ok ())
    [Event.scan, Event.portalCreate { id := 3 }, Event.helperStart,
      Event.helperKill, Event.portalStopOk, Event.sleep,
      Event.exitSend (Except.ok ())]
    (by decide) (by decide)
  ⟨h.2.1, h.2.2.1⟩

/-- C5: a Timeout processed while the activated flag is false performs
a success exit through the unified exit routine; once the flag is true
a Timeout is a no-op that leaves the session running with the state
unchanged, and every continuing step preserves a true activated flag,
so every Timeout after the first processed Activate is a no-op. -/
theorem C5_timeout_behavior (s : LoopState) (stop_ok : Bool) :
    (s.activated = false →
      process_command s (LoopInput.timeout stop_ok) =
        StepResult.exit (Except.ok ())
          (exit_with_result_trace s.portal_connection stop_ok (Except.ok ()))) ∧
    (s.activated = true →
      process_command s (LoopInput.timeout stop_ok) = StepResult.next s []) ∧
    (∀ i s1 tr, s.activated = true →
      process_command s i = StepResult.next s1 tr → s1.activated = true) := by
  refine ⟨?_, ?_, ?_⟩
  · intro h
    simp [process_command, h]
  · intro h
    simp [process_command, h]
  · intro i s1 tr h hstep
    exact (process_command_next s i s1 tr hstep).1 h

/-- Witness for C5: on a not-yet-activated state a Timeout success-exits;
on an activated state it is a no-op. -/
theorem C5_timeout_behavior_witness :
    process_command ⟨[], some { id := 5 }, false⟩ (LoopInput.timeout true) =
      StepResult.exit (Except.ok ())
        (exit_with_result_trace (some { id := 5 }) true (Except.ok ())) ∧
    process_command ⟨[], some { id := 5 }, true⟩ (LoopInput.timeout true) =
      StepResult.next ⟨[], some { id := 5 }, true⟩ [] :=
  ⟨(C5_timeout_behavior ⟨[], some { id := 5 }, false⟩ true).1 rfl,
   (C5_timeout_behavior ⟨[], some { id := 5 }, true⟩ true).2.1 rfl⟩

/-- C6: the scanner retries the raw scan while the filtered result is
empty, up to 10 attempts: if the first k attempts (k less than 10) are
empty and attempt k returns a non-empty filtered list, that list is
returned after exactly k one-second delays; if all 10 attempts are
empty, the empty list is returned successfully (after the 10 delays the
source performs). -/
theorem C6_scan_retry (scan : Nat → Except String (List AccessPoint)) :
    (∀ k raw, k < 10 → (∀ i, i < k → attemptEmptyOk scan i) →
      scan k = Except.ok raw → retain_decodable raw ≠ [] →
      get_access_points scan = Except.ok (retain_decodable raw, k)) ∧
    ((∀ i, i < 10 → attemptEmptyOk scan i) →
      get_access_points scan = Except.ok ([], 10)) :=
  ⟨fun k raw hk hemp hscan hne =>
    get_access_points_success scan k raw hk hemp hscan hne,
   fun hemp => get_access_points_all_empty scan hemp⟩

/-- Witness for C6: a stub returning empty three times and then two
access points yields those two results after exactly three delays. -/
theorem C6_scan_retry_witness :
    get_access_points (fun i =>
        if i < 3 then Except.ok ([] : List AccessPoint)
        else Except.ok [{ ssid_utf8 := some "NetA" }, { ssid_utf8 := some "NetB" }]) =
      Except.ok ([{ ssid_utf8 := some "NetA" }, { ssid_utf8 := some "NetB" }], 3) :=
  (C6_scan_retry _).1 3
    [{ ssid_utf8 := some "NetA" }, { ssid_utf8 := some "NetB" }]
    (by decide)
    (fun i hi => ⟨[], by simp [hi], rfl⟩)
    (by decide) (by decide)

/-- C7: a Connect whose join attempt fails (join error, state not
Activated, or connectivity never confirmed within the 20-second budget)
deletes the just-created connection best-effort (the delete outcome
delete_ok is arbitrary and never fails the session; the delete event
appears whenever the join returned a connection object), re-scans,
recreates the portal, and continues the loop with the new snapshot and
portal, sending no ExitResult and killing no helper; recreation failure
is fatal (error exit). -/
theorem C7_join_failure_recreates (s : LoopState) (ssid pass : String)
    (env : ConnectEnv) (conn0 : Connection)
    (hp : s.portal_connection = some conn0)
    (hstop : env.stop_portal_ok = true)
    (aps1 : List AccessPoint) (n1 : Nat)
    (hscan1 : get_access_points env.scan1 = Except.ok (aps1, n1))
    (ap : AccessPoint) (apssid : String)
    (hfind : find_access_point aps1 ssid = some (ap, apssid))
    (hfail : join_attempt_fails env)
    (aps2 : List AccessPoint) (n2 : Nat)
    (hscan2 : get_access_points env.scan2 = Except.ok (aps2, n2)) :
    (∀ c, env.create_portal_res = Except.ok c →
      ∃ tr, process_command s (LoopInput.connect ssid pass env) =
        StepResult.next ⟨aps2, some c, s.activated⟩ tr ∧
        countSend tr = 0 ∧ countKill tr = 0 ∧
        (∀ pr, env.join = Except.ok pr → connDeleteEvent env.delete_ok ∈ tr)) ∧
    (∀ e, env.create_portal_res = Except.error e →
      ∃ tr, process_command s (LoopInput.connect ssid pass env) =
        StepResult.exit (Except.error ("Creating the access point failed: " ++ e)) tr) := by
  have hmain : ∃ tr0, countKill tr0 = 0 ∧ countSend tr0 = 0 ∧
      (∀ pr, env.join = Except.ok pr → connDeleteEvent env.delete_ok ∈ tr0) ∧
      process_command s (LoopInput.connect ssid pass env) =
        (connect_recreate ⟨aps1, none, s.activated⟩ env).prepend tr0 := by
    simp only [process_command, process_connect, hp]
    rw [hstop, if_pos rfl]
    simp only [connect_after_teardown, hscan1, hfind]
    cases hjoin : env.join with
    | error e =>
      simp only [hjoin]
      refine ⟨stop_portal_trace true ++ [Event.scan, Event.joinAttempt apssid],
        rfl, rfl, ?_, ?_⟩
      · intro pr hpr
        exact absurd hpr (by simp)
      · exact prepend_prepend _ _ _
    | ok pr3 =>
      obtain ⟨conn, st⟩ := pr3
      simp only [hjoin]
      have hfail2 : st = ConnectionState.Activated →
          ∀ t, wait_for_connectivity env.connectivity 20 ≠ Except.ok (true, t) := by
        have h := hfail
        simp only [join_attempt_fails, hjoin] at h
        exact h
      by_cases hst : st = ConnectionState.Activated
      · subst hst
        rw [if_pos rfl]
        cases hwait : wait_for_connectivity env.connectivity 20 with
        | error e2 =>
          simp only [hwait]
          refine ⟨stop_portal_trace true ++
            [Event.scan, Event.joinAttempt apssid, connDeleteEvent env.delete_ok],
            by cases env.delete_ok <;> rfl, by cases env.delete_ok <;> rfl,
            fun pr hpr => by simp [stop_portal_trace], ?_⟩
          exact prepend_prepend _ _ _
        | ok pr4 =>
          obtain ⟨b, t⟩ := pr4
          cases b with
          | true => exact absurd hwait (hfail2 rfl t)
          | false =>
            simp only [hwait]
            refine ⟨stop_portal_trace true ++
              [Event.scan, Event.joinAttempt apssid, connDeleteEvent env.delete_ok],
              by cases env.delete_ok <;> rfl, by cases env.delete_ok <;> rfl,
              fun pr hpr => by simp [stop_portal_trace], ?_⟩
            exact prepend_prepend _ _ _
      · rw [if_neg hst]
        refine ⟨stop_portal_trace true ++
          [Event.scan, Event.joinAttempt apssid, connDeleteEvent env.delete_ok],
          by cases env.delete_ok <;> rfl, by cases env.delete_ok <;> rfl,
          fun pr hpr => by simp [stop_portal_trace], ?_⟩
        exact prepend_prepend _ _ _
  obtain ⟨tr0, hk0, hs0, hmem0, hstep⟩ := hmain
  rw [hstep]
  obtain ⟨hok, herr⟩ :=
    connect_recreate_spec ⟨aps1, none, s.activated⟩ env tr0 aps2 n2 hscan2 hk0 hs0
  constructor
  · intro c hc
    obtain ⟨tr, h1, h2, h3, h4⟩ := hok c hc
    refine ⟨tr, h1, h2, h3, ?_⟩
    intro pr hpr
    rw [h4]
    exact List.mem_append_left _ (hmem0 pr hpr)
  · intro e hc
    exact herr e hc

/-- Witness for C7: a concrete Connect with a wrong passphrase whose
join reports Deactivated recreates the hotspot and continues the loop. -/
theorem C7_join_failure_recreates_witness :
    ∃ tr, process_command
        ⟨[{ ssid_utf8 := some "HomeNet" }], some { id := 0 }, true⟩
        (LoopInput.connect "HomeNet" "wrong"
          { stop_portal_ok := true, stop_portal_err := "",
            scan1 := fun _ => Except.ok [{ ssid_utf8 := some "HomeNet" }],
            join := Except.ok ({ id := 5 }, ConnectionState.Deactivated),
            connectivity := fun _ => Except.ok Connectivity.NoConnectivity,
            delete_ok := false,
            scan2 := fun _ => Except.ok [{ ssid_utf8 := some "HomeNet" }],
            create_portal_res := Except.ok { id := 9 }, exit_stop_ok := true }) =
      StepResult.next ⟨[{ ssid_utf8 := some "HomeNet" }], some { id := 9 }, true⟩ tr ∧
      countSend tr = 0 ∧ countKill tr = 0 ∧
      (∀ pr : Connection × ConnectionState,
        (Except.ok ({ id := 5 }, ConnectionState.Deactivated) :
          Except String (Connection × ConnectionState)) = Except.ok pr →
        connDeleteEvent false ∈ tr) :=
  (C7_join_failure_recreates
    ⟨[{ ssid_utf8 := some "HomeNet" }], some { id := 0 }, true⟩
    "HomeNet" "wrong"
    ({ stop_portal_ok := true, stop_portal_err := "",
       scan1 := fun _ => Except.ok [{ ssid_utf8 := some "HomeNet" }],
       join := Except.ok ({ id := 5 }, ConnectionState.Deactivated),
       connectivity := fun _ => Except.ok Connectivity.NoConnectivity,
       delete_ok := false,
       scan2 := fun _ => Except.ok [{ ssid_utf8 := some "HomeNet" }],
       create_portal_res := Except.ok { id := 9 },
       exit_stop_ok := true } : ConnectEnv)
    { id := 0 } rfl rfl
    [{ ssid_utf8 := some "HomeNet" }] 0 (by decide)
    { ssid_utf8 := some "HomeNet" } "HomeNet" (by decide)
    (by simp [join_attempt_fails])
    [{ ssid_utf8 := some "HomeNet" }] 0 (by decide)).1 { id := 9 } rfl

/-- C8: the connectivity probe polls once per second; it returns true
at the first poll (at elapsed time j, up to and including the budget)
whose status is Full or Limited, with all earlier polls not so; it
returns false at elapsed time equal to the budget when no poll up to
and including the budget observed Full or Limited. -/
theorem C8_connectivity_poll (get : Nat → Except String Connectivity)
    (timeout : Nat) :
    (∀ j c, j ≤ timeout →
      (∀ i, i < j → ∃ c2, get i = Except.ok c2 ∧
        ¬(c2 = Connectivity.Full ∨ c2 = Connectivity.Limited)) →
      get j = Except.ok c → (c = Connectivity.Full ∨ c = Connectivity.Limited) →
      wait_for_connectivity get timeout = Except.ok (true, j)) ∧
    ((∀ i, i ≤ timeout → ∃ c, get i = Except.ok c ∧
        ¬(c = Connectivity.Full ∨ c = Connectivity.Limited)) →
      wait_for_connectivity get timeout = Except.ok (false, timeout)) :=
  ⟨fun j c hj hbad hget hgood =>
    wait_for_connectivity_true get timeout j c hj hbad hget hgood,
   fun hbad => wait_for_connectivity_false get timeout hbad⟩

/-- Witness for C8: with the default 20-second budget and a stub whose
status becomes Full at the third poll, the probe returns true at
elapsed time 2. -/
theorem C8_connectivity_poll_witness :
    wait_for_connectivity (fun i =>
        if i < 2 then Except.ok Connectivity.NoConnectivity
        else Except.ok Connectivity.Full) 20 = Except.ok (true, 2) :=
  (C8_connectivity_poll _ 20).1 2 Connectivity.Full (by omega)
    (fun i hi => ⟨Connectivity.NoConnectivity, by rw [if_pos hi], by decide⟩)
    (by norm_num) (Or.inl rfl)

/-- C9: processing Activate sets the activated flag and sends to the
Server exactly the decoded ssid texts of the current snapshot, in scan
order with duplicates preserved; the response is computed from the
snapshot field of the current state, never from a cache. -/
theorem C9_activate_response (s : LoopState) (send_err : String)
    (stop_ok : Bool) (h : decodOK s.access_points) :
    process_command s (LoopInput.activate true send_err stop_ok) =
      StepResult.next { s with activated := true }
        [Event.respond (ssid_texts s.access_points)] := by
  simp only [process_command, ssids_owned_of_decod s.access_points h]
  rw [if_true]

/-- Witness for C9: a snapshot with a duplicated ssid produces the
duplicated list in order, and the flag becomes true. -/
theorem C9_activate_response_witness :
    process_command
      ⟨[{ ssid_utf8 := some "Net" }, { ssid_utf8 := some "Net" },
        { ssid_utf8 := some "Guest" }], some { id := 1 }, false⟩
      (LoopInput.activate true "" true) =
      StepResult.next
        ⟨[{ ssid_utf8 := some "Net" }, { ssid_utf8 := some "Net" },
          { ssid_utf8 := some "Guest" }], some { id := 1 }, true⟩
        [Event.respond ["Net", "Net", "Guest"]] :=
  C9_activate_response
    ⟨[{ ssid_utf8 := some "Net" }, { ssid_utf8 := some "Net" },
      { ssid_utf8 := some "Guest" }], some { id := 1 }, false⟩
    "" true (by decide)

/-- C10: the scanner filters out undecodable entries before its
emptiness check, so every snapshot it returns is fully decodable and
the ssid-listing unwraps cannot fail; a raw attempt whose entries are
all undecodable filters to the empty list and (as one more loop step)
is retried; and every snapshot held by a running orchestrator session
is decodable with its ssid listing defined. -/
theorem C10_snapshots_decodable :
    (∀ scan aps n, get_access_points scan = Except.ok (aps, n) →
      decodOK aps ∧
      get_access_points_ssids_owned aps = some (ssid_texts aps) ∧
      get_access_points_ssids aps = some (ssid_texts aps)) ∧
    (∀ raw, (∀ ap ∈ raw, ap.ssid_utf8 = none) → retain_decodable raw = []) ∧
    (∀ scan raw fuel retries sleeps, scan retries = Except.ok raw →
      (∀ ap ∈ raw, ap.ssid_utf8 = none) →
      get_access_points_loop scan (fuel + 1) retries sleeps =
        get_access_points_loop scan fuel (retries + 1) (sleeps + 1)) ∧
    (∀ config senv inputs s tr,
      process_network_commands config senv inputs = (SessionResult.running s, tr) →
      decodOK s.access_points ∧
      get_access_points_ssids_owned s.access_points =
        some (ssid_texts s.access_points)) := by
  refine ⟨?_, ?_, ?_, ?_⟩
  · intro scan aps n h
    have hd := get_access_points_decod scan aps n h
    exact ⟨hd, ssids_owned_of_decod aps hd, ssids_of_decod aps hd⟩
  · intro raw h
    exact retain_none raw h
  · intro scan raw fuel retries sleeps hscan hnone
    simp only [get_access_points_loop, hscan]
    try dsimp only
    rw [retain_none raw hnone,
      if_pos (show ([] : List AccessPoint).isEmpty = true from rfl)]
  · intro config senv inputs s tr heq
    have h := pnc_OK config senv inputs
    rw [heq] at h
    exact ⟨h.2.2.2, ssids_owned_of_decod s.access_points h.2.2.2⟩

/-- Witness for C10: a raw scan containing one undecodable entry yields
a snapshot with the undecodable entry discarded, decodable, with its
ssid listing defined. -/
theorem C10_snapshots_decodable_witness :
    decodOK [{ ssid_utf8 := some "Okay" }] ∧
    get_access_points_ssids_owned [{ ssid_utf8 := some "Okay" }] =
      some (ssid_texts [{ ssid_utf8 := some "Okay" }]) ∧
    get_access_points_ssids [{ ssid_utf8 := some "Okay" }] =
      some (ssid_texts [{ ssid_utf8 := some "Okay" }]) :=
  C10_snapshots_decodable.1
    (fun _ => Except.ok [{ ssid_utf8 := none }, { ssid_utf8 := some "Okay" }])
    [{ ssid_utf8 := some "Okay" }] 0 (by decide)

end WifiConnect
